import Mathlib

/-!
Shallow embedding of `src/simulation/src/system/configuration.c` (LoWAPP
simulation node configuration).  The configuration record, the key-dispatched
`get_config`/`set_config`, the `strtok`-based `parse_line`, the path
resolution `node_init` and the identity helper `get_uuid` are translated from
the C source.  The conversion helpers (`lowapp_utils_conversion.c`) and the
key string literals are declared `extern` in the source file and their
definitions are not part of the source tree, so they are modelled from the
specification (codec section and schema table), as noted on each definition.
External collaborators (libc `strtok`, libuuid `uuid_parse`/`uuid_generate`,
the file-existence query) are modelled by their documented semantics, the
fallible environment queries as boolean-oracle parameters.
-/

namespace LowApp

/-- Modelled from the spec: numeric value of an ASCII hexadecimal digit, as
used by the missing conversion routines of `lowapp_utils_conversion.c`.
Characters outside the hex-digit classes are given the junk value 0 (the
spec states malformed input silently produces unspecified output). -/
def hexVal (c : Char) : Nat :=
  if 48 ≤ c.toNat ∧ c.toNat ≤ 57 then c.toNat - 48
  else if 65 ≤ c.toNat ∧ c.toNat ≤ 70 then c.toNat - 55
  else if 97 ≤ c.toNat ∧ c.toNat ≤ 102 then c.toNat - 87
  else 0

/-- Modelled from the spec: hexadecimal digit character for a value below 16.
The output convention is fixed to uppercase (the spec allows either case,
used consistently).  Values 15 and above all map to the last digit so the
function is total; it is only applied below 16. -/
def fromHexDigit : Nat → Char
  | 0 => '0' | 1 => '1' | 2 => '2' | 3 => '3' | 4 => '4'
  | 5 => '5' | 6 => '6' | 7 => '7' | 8 => '8' | 9 => '9'
  | 10 => 'A' | 11 => 'B' | 12 => 'C' | 13 => 'D' | 14 => 'E'
  | _ => 'F'

/-- Modelled from the spec: the two hex characters of one byte, most
significant nibble first (`decodeHexField` emits most-significant byte
first). -/
def byteToHexChars (b : Nat) : List Char :=
  [fromHexDigit (b / 16), fromHexDigit (b % 16)]

/-- Modelled from the spec: `FillBufferHexBI8_t` / `decodeHexField` — a
binary field of `n` bytes becomes a hex string of exactly `2 * n`
characters, most-significant byte first. -/
def decodeHexField (bs : List Nat) : String :=
  ⟨(bs.map byteToHexChars).flatten⟩

/-- Modelled from the spec: `AsciiHexStringConversionBI8_t` /
`encodeHexField` — parses exactly the first `2 * n` hex characters into `n`
bytes, most-significant byte first; characters beyond that length are
ignored.  When the input is shorter than `2 * n` characters the source reads
past the string (unspecified); that case is modelled by junk zero bytes. -/
def encodeHexChars : Nat → List Char → List Nat
  | 0, _ => []
  | n+1, c1 :: c2 :: cs => (16 * hexVal c1 + hexVal c2) :: encodeHexChars n cs
  | n+1, _ => List.replicate (n+1) 0

/-- Reading exactly `n` bytes out of a stored field, as the `get_config`
calls pass an explicit byte width for each field.  On well-formed fields
(length exactly `n`, which every `set_config` write and the zero-initialized
start state maintain) this is the identity. -/
def readBytes (n : Nat) (bs : List Nat) : List Nat :=
  bs.take n ++ List.replicate (n - bs.length) 0

/-- Decimal digit character for a value below 10 (total, only applied below
10). -/
def digitChar : Nat → Char
  | 0 => '0' | 1 => '1' | 2 => '2' | 3 => '3' | 4 => '4'
  | 5 => '5' | 6 => '6' | 7 => '7' | 8 => '8' | _ => '9'

/-- Numeric value of an ASCII decimal digit; non-digits get the junk
value 0. -/
def decVal (c : Char) : Nat :=
  if 48 ≤ c.toNat ∧ c.toNat ≤ 57 then c.toNat - 48 else 0

/-- Modelled from the spec: digits of `n` in base 10, most significant
first, with an explicit fuel argument (`n + 1` is always enough fuel) so the
definition is structural and computes by `decide`/`rfl`. -/
def decDigitsAux : Nat → Nat → List Char
  | 0, _ => []
  | fuel+1, n =>
    if n < 10 then [digitChar n]
    else decDigitsAux fuel (n / 10) ++ [digitChar (n % 10)]

/-- Modelled from the spec: `FillBuffer16_t` / `decodeDecimalField` — the
base-10 text of an unsigned integer field. -/
def decString (n : Nat) : String := ⟨decDigitsAux (n + 1) n⟩

/-- Modelled from the spec: `AsciiDecStringConversion_t` /
`encodeDecimalField` — parses a decimal string of arbitrary length into an
unsigned integer (non-digit characters contribute the junk value 0). -/
def parseDec (s : String) : Nat :=
  s.data.foldl (fun a c => 10 * a + decVal c) 0

/-- The sixteen uppercase hexadecimal digit characters. -/
def hexUpperChars : List Char :=
  ['0','1','2','3','4','5','6','7','8','9','A','B','C','D','E','F']

/-- A canonical hex encoding for an `n`-byte field: exactly `2 * n`
characters, all hex digits in the codec's (uppercase) output convention. -/
def isCanonicalHex (n : Nat) (v : String) : Prop :=
  v.data.length = 2 * n ∧ ∀ c ∈ v.data, c ∈ hexUpperChars

instance {n : Nat} {v : String} : Decidable (isCanonicalHex n v) :=
  inferInstanceAs
    (Decidable (v.data.length = 2 * n ∧ ∀ c ∈ v.data, c ∈ hexUpperChars))

/-- A canonical decimal encoding for the 2-byte `preambleTime` field: the
decimal rendering of a value below `2 ^ 16`. -/
def isCanonicalDec (v : String) : Prop :=
  ∃ m, m < 65536 ∧ v = decString m

/-- Modelled from the spec: the extern key literal `strDeviceId`. -/
def strDeviceId : String := "deviceId"

/-- Modelled from the spec: the extern key literal `strGroupId`. -/
def strGroupId : String := "groupId"

/-- Modelled from the spec: the extern key literal `strGwMask`. -/
def strGwMask : String := "gwMask"

/-- Modelled from the spec: the extern key literal `strEncKey`. -/
def strEncKey : String := "encKey"

/-- Modelled from the spec: the extern key literal `strRchanId`. -/
def strRchanId : String := "rchanId"

/-- Modelled from the spec: the extern key literal `strRsf`. -/
def strRsf : String := "rsf"

/-- Modelled from the spec: the extern key literal `strPreambleTime`. -/
def strPreambleTime : String := "preambleTime"

/-- The closed set of the seven recognized configuration keys. -/
def configKeys : List String :=
  [strDeviceId, strGroupId, strGwMask, strRchanId, strRsf, strPreambleTime,
   strEncKey]

/-- Embedding of `ConfigNode_t`.  Each hex field is the byte buffer the
codec addresses (the source casts the integer fields to `uint8_t*`), of the
schema's width; `preambleTime` is the `uint16_t` value printed and parsed in
decimal. -/
structure ConfigNode where
  deviceId : List Nat
  groupId : List Nat
  gwMask : List Nat
  rchanId : List Nat
  rsf : List Nat
  preambleTime : Nat
  encKey : List Nat
deriving DecidableEq

/-- The zero-initialized configuration (the spec: fields default to
zero-initialized until explicitly set; `myConfig` has static storage). -/
def initialConfig : ConfigNode :=
  { deviceId := [0], groupId := [0, 0], gwMask := [0, 0, 0, 0],
    rchanId := [0], rsf := [0], preambleTime := 0,
    encKey := List.replicate 16 0 }

/-- Embedding of `get_config`: the seven-way key dispatch of the source, in
source order (gwMask, deviceId, groupId, rchanId, rsf, preambleTime,
encKey), each branch filling the output buffer from the field with the
source's explicit byte width; `none` models the `-1` unknown-key return. -/
def get_config (cfg : ConfigNode) (key : String) : Option String :=
  if key = strGwMask then some (decodeHexField (readBytes 4 cfg.gwMask))
  else if key = strDeviceId then some (decodeHexField (readBytes 1 cfg.deviceId))
  else if key = strGroupId then some (decodeHexField (readBytes 2 cfg.groupId))
  else if key = strRchanId then some (decodeHexField (readBytes 1 cfg.rchanId))
  else if key = strRsf then some (decodeHexField (readBytes 1 cfg.rsf))
  else if key = strPreambleTime then some (decString cfg.preambleTime)
  else if key = strEncKey then some (decodeHexField (readBytes 16 cfg.encKey))
  else none

/-- Embedding of `set_config`: the seven-way key dispatch of the source in
source order.  The value pointer may be null (`none`): no recognized-key
branch checks it before converting, so a null value on a recognized key is
a null dereference — modelled as the undefined result `none`
(`Option.map` over the null value).  The result pairs the new configuration
with the source's return code (`0` key found, `-1` unknown key).  The
`preambleTime` branch truncates modulo `2 ^ 16` at the `uint16_t`
assignment, as in the source. -/
def set_config (cfg : ConfigNode) (key : String) (val : Option String) :
    Option (ConfigNode × Int) :=
  if key = strGwMask then
    val.map (fun v => ({ cfg with gwMask := encodeHexChars 4 v.data }, 0))
  else if key = strDeviceId then
    val.map (fun v => ({ cfg with deviceId := encodeHexChars 1 v.data }, 0))
  else if key = strGroupId then
    val.map (fun v => ({ cfg with groupId := encodeHexChars 2 v.data }, 0))
  else if key = strRchanId then
    val.map (fun v => ({ cfg with rchanId := encodeHexChars 1 v.data }, 0))
  else if key = strRsf then
    val.map (fun v => ({ cfg with rsf := encodeHexChars 1 v.data }, 0))
  else if key = strPreambleTime then
    val.map (fun v => ({ cfg with preambleTime := parseDec v % 65536 }, 0))
  else if key = strEncKey then
    val.map (fun v => ({ cfg with encKey := encodeHexChars 16 v.data }, 0))
  else some (cfg, -1)

/-- One `strtok(·, ":")` step: skip leading delimiters; if nothing is left
return null (`none`), otherwise return the maximal delimiter-free token and
the remaining characters. -/
def nextTok (cs : List Char) : Option (List Char × List Char) :=
  match cs.dropWhile (fun c => c == ':') with
  | [] => none
  | c :: cs' =>
    some ((c :: cs').takeWhile (fun c => !(c == ':')),
          (c :: cs').dropWhile (fun c => !(c == ':')))

/-- The key/value pair `parse_line` forwards to `set_config`: the first
`strtok` token as the key and the second (null when absent) as the value;
`none` when the first `strtok` already returns null. -/
def parse_line_kv (line : String) : Option (String × Option String) :=
  match nextTok line.data with
  | none => none
  | some (k, rest) => some (⟨k⟩, (nextTok rest).map (fun p => ⟨p.1⟩))

/-- Embedding of `parse_line`: split the line with `strtok` around `:`;
if the first token is null return `-1`, otherwise forward key and (possibly
null) value to `set_config` and propagate its result. -/
def parse_line (cfg : ConfigNode) (line : String) : Option (ConfigNode × Int) :=
  match parse_line_kv line with
  | none => some (cfg, -1)
  | some (k, v) => set_config cfg k v

/-- Embedding of `struct arguments` as consumed by `node_init`: the
optional `--config`, `--uuid` and `--directory` strings. -/
structure arguments where
  config : Option String
  uuid : Option String
  directory : Option String

/-- The failure kinds of `node_init`, read off the fatal log messages; at
the function boundary they all collapse to the return code `-1`. -/
inductive InitError where
  | configNotFound
  | invalidIdentity
  | insufficientArguments
deriving DecidableEq

/-- Embedding of `node_init`.  `fexists` models the external `file_exists`
query and `uuidOk` the external libuuid `uuid_parse` success (`uuid_parse
== 0`); `nodeSubdir` is the extern subdirectory string.  On success the
resolved `configFile` path is returned. -/
def node_init (fexists uuidOk : String → Bool) (nodeSubdir : String)
    (args : arguments) : Except InitError String :=
  match args.config with
  | some cfg =>
    if fexists cfg then .ok cfg
    else
      match args.directory with
      | some dir =>
        if fexists (dir ++ cfg) then .ok (dir ++ cfg)
        else .error .configNotFound
      | none => .error .configNotFound
  | none =>
    match args.uuid, args.directory with
    | some u, some dir =>
      if uuidOk u then
        if fexists (dir ++ nodeSubdir ++ u) then .ok (dir ++ nodeSubdir ++ u)
        else .error .configNotFound
      else .error .invalidIdentity
    | _, _ => .error .insufficientArguments

/-- The `int8_t` return code of `node_init` at the function boundary:
`0` for every success, `-1` for every failure kind. -/
def node_init_ret (fexists uuidOk : String → Bool) (nodeSubdir : String)
    (args : arguments) : Int :=
  match node_init fexists uuidOk nodeSubdir args with
  | .ok _ => 0
  | .error _ => -1

/-- Embedding of `get_uuid`.  `genUuid` models the string produced by the
external `uuid_generate`/`uuid_unparse` pair.  The source's `argc == 2`
branch has an empty body: `uuid_str` and `ret` are never assigned before
`sprintf(configFile, "Nodes/%s", uuid_str)` runs and `ret` is returned, so
the result is built from uninitialized data — modelled as the undefined
result `none`.  Otherwise a fresh uuid is generated and the path
`"Nodes/" ++ uuid` is stored with return code `0`. -/
def get_uuid (genUuid : String) (argc : Nat) : Option (Int × String) :=
  if argc = 2 then none
  else some (0, "Nodes/" ++ genUuid)

/-- A whole-field write: the new configuration differs from the old one in
exactly one addressed field, replaced in full (the complete schema width
for byte fields, a value within the 2-byte range for `preambleTime`). -/
def wholeFieldUpdate (cfg cfg2 : ConfigNode) : Prop :=
  (∃ b, b.length = 4 ∧ cfg2 = { cfg with gwMask := b })
  ∨ (∃ b, b.length = 1 ∧ cfg2 = { cfg with deviceId := b })
  ∨ (∃ b, b.length = 2 ∧ cfg2 = { cfg with groupId := b })
  ∨ (∃ b, b.length = 1 ∧ cfg2 = { cfg with rchanId := b })
  ∨ (∃ b, b.length = 1 ∧ cfg2 = { cfg with rsf := b })
  ∨ (∃ m, m < 65536 ∧ cfg2 = { cfg with preambleTime := m })
  ∨ (∃ b, b.length = 16 ∧ cfg2 = { cfg with encKey := b })

/-! Codec lemmas -/

theorem hexChar_roundtrip :
    ∀ c ∈ hexUpperChars, fromHexDigit (hexVal c) = c ∧ hexVal c < 16 := by
  decide

theorem encodeHexChars_length :
    ∀ (n : Nat) (cs : List Char), (encodeHexChars n cs).length = n := by
  intro n
  induction n with
  | zero => intro cs; rfl
  | succ n ih =>
    intro cs
    cases cs with
    | nil => simp [encodeHexChars]
    | cons c1 cs' =>
      cases cs' with
      | nil => simp [encodeHexChars]
      | cons c2 rest => simp [encodeHexChars, ih]

theorem readBytes_of_length {n : Nat} {bs : List Nat} (h : bs.length = n) :
    readBytes n bs = bs := by
  subst h
  simp [readBytes]

theorem decode_encode_chars :
    ∀ (n : Nat) (cs : List Char), cs.length = 2 * n →
      (∀ c ∈ cs, c ∈ hexUpperChars) →
      ((encodeHexChars n cs).map byteToHexChars).flatten = cs := by
  intro n
  induction n with
  | zero =>
    intro cs hlen _
    have h : cs = [] := List.eq_nil_of_length_eq_zero (by omega)
    subst h
    rfl
  | succ n ih =>
    intro cs hlen hhex
    cases cs with
    | nil => simp at hlen
    | cons c1 cs' =>
      cases cs' with
      | nil => simp at hlen; omega
      | cons c2 rest =>
        have hr : rest.length = 2 * n := by
          simp only [List.length_cons] at hlen
          omega
        have h1 := hexChar_roundtrip c1 (hhex c1 (by simp))
        have h2 := hexChar_roundtrip c2 (hhex c2 (by simp))
        have hdiv : (16 * hexVal c1 + hexVal c2) / 16 = hexVal c1 := by omega
        have hmod : (16 * hexVal c1 + hexVal c2) % 16 = hexVal c2 := by omega
        have hrest : ∀ c ∈ rest, c ∈ hexUpperChars := by
          intro c hc
          exact hhex c (by simp [hc])
        simp only [encodeHexChars, List.map_cons, List.flatten_cons,
          byteToHexChars, hdiv, hmod, h1.1, h2.1, ih rest hr hrest]
        rfl

theorem decodeHexField_encode {n : Nat} {v : String} (h : isCanonicalHex n v) :
    decodeHexField (encodeHexChars n v.data) = v := by
  obtain ⟨hlen, hhex⟩ := h
  unfold decodeHexField
  rw [decode_encode_chars n v.data hlen hhex]

/-! Decimal codec lemmas -/

theorem decVal_digitChar {d : Nat} (h : d < 10) : decVal (digitChar d) = d := by
  interval_cases d <;> rfl

theorem parseDec_decDigitsAux :
    ∀ (fuel n : Nat), n < 10 ^ fuel →
      (decDigitsAux fuel n).foldl (fun a c => 10 * a + decVal c) 0 = n := by
  intro fuel
  induction fuel with
  | zero =>
    intro n h
    simp only [pow_zero, Nat.lt_one_iff] at h
    subst h
    rfl
  | succ fuel ih =>
    intro n h
    by_cases h10 : n < 10
    · simp only [decDigitsAux, if_pos h10, List.foldl_cons, List.foldl_nil,
        Nat.mul_zero, Nat.zero_add]
      exact decVal_digitChar h10
    · rw [decDigitsAux, if_neg h10, List.foldl_append]
      have hdivlt : n / 10 < 10 ^ fuel := by
        rw [Nat.div_lt_iff_lt_mul (by omega)]
        calc n < 10 ^ (fuel + 1) := h
        _ = 10 ^ fuel * 10 := by rw [pow_succ]
      rw [ih (n / 10) hdivlt]
      simp only [List.foldl_cons, List.foldl_nil]
      rw [decVal_digitChar (Nat.mod_lt n (by omega))]
      omega

theorem parseDec_decString (n : Nat) : parseDec (decString n) = n := by
  have hlt : n < 10 ^ (n + 1) := by
    calc n < 2 ^ n := Nat.lt_two_pow n
    _ ≤ 10 ^ n := Nat.pow_le_pow_left (by omega) n
    _ ≤ 10 ^ (n + 1) := Nat.pow_le_pow_right (by omega) (by omega)
  exact parseDec_decDigitsAux (n + 1) n hlt

/-! Evaluation lemmas for the key dispatch -/

theorem get_config_unknown {key : String} (cfg : ConfigNode)
    (h : key ∉ configKeys) : get_config cfg key = none := by
  simp only [configKeys, List.mem_cons, List.mem_singleton, not_or] at h
  obtain ⟨h1, h2, h3, h4, h5, h6, h7⟩ := h
  simp [get_config, h1, h2, h3, h4, h5, h6, h7]

theorem set_config_unknown {key : String} (cfg : ConfigNode)
    (val : Option String) (h : key ∉ configKeys) :
    set_config cfg key val = some (cfg, -1) := by
  simp only [configKeys, List.mem_cons, List.mem_singleton, not_or] at h
  obtain ⟨h1, h2, h3, h4, h5, h6, h7⟩ := h
  simp [set_config, h1, h2, h3, h4, h5, h6, h7]

theorem set_config_known_none {key : String} (cfg : ConfigNode)
    (h : key ∈ configKeys) : set_config cfg key none = none := by
  simp only [configKeys, List.mem_cons, List.mem_singleton,
    List.mem_nil_iff, or_false] at h
  rcases h with rfl | rfl | rfl | rfl | rfl | rfl | rfl <;>
    simp [set_config, strDeviceId, strGroupId, strGwMask, strRchanId,
      strRsf, strPreambleTime, strEncKey]

theorem set_config_deviceId (cfg : ConfigNode) (v : String) :
    set_config cfg strDeviceId (some v) =
      some ({ cfg with deviceId := encodeHexChars 1 v.data }, 0) := by
  simp [set_config, strDeviceId, strGwMask]

theorem set_config_groupId (cfg : ConfigNode) (v : String) :
    set_config cfg strGroupId (some v) =
      some ({ cfg with groupId := encodeHexChars 2 v.data }, 0) := by
  simp [set_config, strGroupId, strGwMask, strDeviceId]

theorem set_config_gwMask (cfg : ConfigNode) (v : String) :
    set_config cfg strGwMask (some v) =
      some ({ cfg with gwMask := encodeHexChars 4 v.data }, 0) := by
  simp [set_config]

theorem set_config_rchanId (cfg : ConfigNode) (v : String) :
    set_config cfg strRchanId (some v) =
      some ({ cfg with rchanId := encodeHexChars 1 v.data }, 0) := by
  simp [set_config, strRchanId, strGwMask, strDeviceId, strGroupId]

theorem set_config_rsf (cfg : ConfigNode) (v : String) :
    set_config cfg strRsf (some v) =
      some ({ cfg with rsf := encodeHexChars 1 v.data }, 0) := by
  simp [set_config, strRsf, strGwMask, strDeviceId, strGroupId, strRchanId]

theorem set_config_preambleTime (cfg : ConfigNode) (v : String) :
    set_config cfg strPreambleTime (some v) =
      some ({ cfg with preambleTime := parseDec v % 65536 }, 0) := by
  simp [set_config, strPreambleTime, strGwMask, strDeviceId, strGroupId,
    strRchanId, strRsf]

theorem set_config_encKey (cfg : ConfigNode) (v : String) :
    set_config cfg strEncKey (some v) =
      some ({ cfg with encKey := encodeHexChars 16 v.data }, 0) := by
  simp [set_config, strEncKey, strGwMask, strDeviceId, strGroupId,
    strRchanId, strRsf, strPreambleTime]

theorem get_config_deviceId (cfg : ConfigNode) :
    get_config cfg strDeviceId =
      some (decodeHexField (readBytes 1 cfg.deviceId)) := by
  simp [get_config, strDeviceId, strGwMask]

theorem get_config_groupId (cfg : ConfigNode) :
    get_config cfg strGroupId =
      some (decodeHexField (readBytes 2 cfg.groupId)) := by
  simp [get_config, strGroupId, strGwMask, strDeviceId]

theorem get_config_gwMask (cfg : ConfigNode) :
    get_config cfg strGwMask =
      some (decodeHexField (readBytes 4 cfg.gwMask)) := by
  simp [get_config]

theorem get_config_rchanId (cfg : ConfigNode) :
    get_config cfg strRchanId =
      some (decodeHexField (readBytes 1 cfg.rchanId)) := by
  simp [get_config, strRchanId, strGwMask, strDeviceId, strGroupId]

theorem get_config_rsf (cfg : ConfigNode) :
    get_config cfg strRsf = some (decodeHexField (readBytes 1 cfg.rsf)) := by
  simp [get_config, strRsf, strGwMask, strDeviceId, strGroupId, strRchanId]

theorem get_config_preambleTime (cfg : ConfigNode) :
    get_config cfg strPreambleTime = some (decString cfg.preambleTime) := by
  simp [get_config, strPreambleTime, strGwMask, strDeviceId, strGroupId,
    strRchanId, strRsf]

theorem get_config_encKey (cfg : ConfigNode) :
    get_config cfg strEncKey =
      some (decodeHexField (readBytes 16 cfg.encKey)) := by
  simp [get_config, strEncKey, strGwMask, strDeviceId, strGroupId,
    strRchanId, strRsf, strPreambleTime]

/-! Tokenizer lemmas for colon-free lines -/

theorem dropWhile_colon_of_not_mem {l : List Char} (h : ':' ∉ l) :
    l.dropWhile (fun c => c == ':') = l := by
  induction l with
  | nil => rfl
  | cons a t ih =>
    have ha : ¬ a = ':' := fun hc => h (by simp [hc])
    have ht : ':' ∉ t := fun hc => h (by simp [hc])
    simp [List.dropWhile_cons, ha, ih ht]

theorem takeWhile_not_colon_of_not_mem {l : List Char} (h : ':' ∉ l) :
    l.takeWhile (fun c => !(c == ':')) = l := by
  induction l with
  | nil => rfl
  | cons a t ih =>
    have ha : ¬ a = ':' := fun hc => h (by simp [hc])
    have ht : ':' ∉ t := fun hc => h (by simp [hc])
    simp [List.takeWhile_cons, ha, ih ht]

theorem dropWhile_not_colon_of_not_mem {l : List Char} (h : ':' ∉ l) :
    l.dropWhile (fun c => !(c == ':')) = [] := by
  induction l with
  | nil => rfl
  | cons a t ih =>
    have ha : ¬ a = ':' := fun hc => h (by simp [hc])
    have ht : ':' ∉ t := fun hc => h (by simp [hc])
    simp [List.dropWhile_cons, ha, ih ht]

theorem parse_line_kv_no_colon {line : String} (h : ':' ∉ line.data)
    (hne : line ≠ "") : parse_line_kv line = some (line, none) := by
  obtain ⟨l⟩ := line
  have hl : l ≠ [] := by
    intro hc
    exact hne (by simp [hc])
  simp only [parse_line_kv, nextTok, dropWhile_colon_of_not_mem h]
  cases l with
  | nil => exact absurd rfl hl
  | cons a t =>
    have hat : (a :: t).takeWhile (fun c => !(c == ':')) = a :: t :=
      takeWhile_not_colon_of_not_mem h
    have had : (a :: t).dropWhile (fun c => !(c == ':')) = [] :=
      dropWhile_not_colon_of_not_mem h
    simp [hat, had]

/-! Claim theorems -/

/-- Claim C1: for every key outside the closed set of seven recognized
keys, `get_config` and `set_config` return `-1` (modelled `none` /
`some (cfg, -1)`) and leave every field of the configuration unchanged;
and a `set_config` call never performs a partial write — every result
either leaves the configuration unchanged (code `-1`) or replaces the
entire addressed field (code `0`). -/
theorem config_unknown_key_rejected_no_partial_write
    (cfg cfg2 : ConfigNode) (key k w0 : String) (val : Option String)
    (r : Int) (hk : key ∉ configKeys)
    (hset : set_config cfg k (some w0) = some (cfg2, r)) :
    get_config cfg key = none
    ∧ set_config cfg key val = some (cfg, -1)
    ∧ ((r = -1 ∧ cfg2 = cfg) ∨ (r = 0 ∧ wholeFieldUpdate cfg cfg2)) := by
  refine ⟨get_config_unknown cfg hk, set_config_unknown cfg val hk, ?_⟩
  by_cases hkk : k ∈ configKeys
  · right
    simp only [configKeys, List.mem_cons, List.mem_singleton,
      List.mem_nil_iff, or_false] at hkk
    rcases hkk with rfl | rfl | rfl | rfl | rfl | rfl | rfl
    · rw [set_config_deviceId] at hset
      simp only [Option.some.injEq, Prod.mk.injEq] at hset
      obtain ⟨hc, hr⟩ := hset
      exact ⟨hr.symm, Or.inr (Or.inl
        ⟨encodeHexChars 1 w0.data, encodeHexChars_length 1 w0.data, hc.symm⟩)⟩
    · rw [set_config_groupId] at hset
      simp only [Option.some.injEq, Prod.mk.injEq] at hset
      obtain ⟨hc, hr⟩ := hset
      exact ⟨hr.symm, Or.inr (Or.inr (Or.inl
        ⟨encodeHexChars 2 w0.data, encodeHexChars_length 2 w0.data, hc.symm⟩))⟩
    · rw [set_config_gwMask] at hset
      simp only [Option.some.injEq, Prod.mk.injEq] at hset
      obtain ⟨hc, hr⟩ := hset
      exact ⟨hr.symm, Or.inl
        ⟨encodeHexChars 4 w0.data, encodeHexChars_length 4 w0.data, hc.symm⟩⟩
    · rw [set_config_rchanId] at hset
      simp only [Option.some.injEq, Prod.mk.injEq] at hset
      obtain ⟨hc, hr⟩ := hset
      exact ⟨hr.symm, Or.inr (Or.inr (Or.inr (Or.inl
        ⟨encodeHexChars 1 w0.data, encodeHexChars_length 1 w0.data,
         hc.symm⟩)))⟩
    · rw [set_config_rsf] at hset
      simp only [Option.some.injEq, Prod.mk.injEq] at hset
      obtain ⟨hc, hr⟩ := hset
      exact ⟨hr.symm, Or.inr (Or.inr (Or.inr (Or.inr (Or.inl
        ⟨encodeHexChars 1 w0.data, encodeHexChars_length 1 w0.data,
         hc.symm⟩))))⟩
    · rw [set_config_preambleTime] at hset
      simp only [Option.some.injEq, Prod.mk.injEq] at hset
      obtain ⟨hc, hr⟩ := hset
      exact ⟨hr.symm, Or.inr (Or.inr (Or.inr (Or.inr (Or.inr (Or.inl
        ⟨parseDec w0 % 65536, Nat.mod_lt _ (by omega), hc.symm⟩)))))⟩
    · rw [set_config_encKey] at hset
      simp only [Option.some.injEq, Prod.mk.injEq] at hset
      obtain ⟨hc, hr⟩ := hset
      exact ⟨hr.symm, Or.inr (Or.inr (Or.inr (Or.inr (Or.inr (Or.inr
        ⟨encodeHexChars 16 w0.data, encodeHexChars_length 16 w0.data,
         hc.symm⟩)))))⟩
  · rw [set_config_unknown cfg (some w0) hkk] at hset
    simp only [Option.some.injEq, Prod.mk.injEq] at hset
    exact Or.inl ⟨hset.2.symm, hset.1.symm⟩

/-- Witness for C1: the unknown key `"bogus"` is rejected by both
operations without touching the configuration, applied together with a
concrete recognized-key write that replaces the whole `deviceId` field. -/
theorem config_unknown_key_rejected_no_partial_write_witness :
    get_config initialConfig "bogus" = none
    ∧ set_config initialConfig "bogus" (some "00") = some (initialConfig, -1)
    ∧ (((0 : Int) = -1
        ∧ { initialConfig with deviceId := encodeHexChars 1 "AB".data }
            = initialConfig)
      ∨ ((0 : Int) = 0
        ∧ wholeFieldUpdate initialConfig
            { initialConfig with deviceId := encodeHexChars 1 "AB".data })) :=
  config_unknown_key_rejected_no_partial_write initialConfig
    { initialConfig with deviceId := encodeHexChars 1 "AB".data }
    "bogus" strDeviceId "AB" (some "00") 0 (by decide) (by decide)

/-- Claim C2: with `configPath` set, `node_init` uses the literal path when
it exists (code 0); otherwise, when `directory` is also set, it uses the
concatenation `directory ++ configPath` when that exists (code 0);
otherwise it fails with `ConfigNotFound` (code -1); and the uuid/directory
branch is never consulted (the result is independent of the uuid argument
and of the uuid validator). -/
theorem node_init_config_path_resolution
    (fe uo uo2 : String → Bool) (sub c d : String) (u u2 dOpt : Option String) :
    (fe c = true → ∀ (uA dA : Option String),
        node_init fe uo sub ⟨some c, uA, dA⟩ = .ok c
        ∧ node_init_ret fe uo sub ⟨some c, uA, dA⟩ = 0)
    ∧ (fe c = false → fe (d ++ c) = true →
        node_init fe uo sub ⟨some c, u, some d⟩ = .ok (d ++ c)
        ∧ node_init_ret fe uo sub ⟨some c, u, some d⟩ = 0)
    ∧ (fe c = false → fe (d ++ c) = false →
        node_init fe uo sub ⟨some c, u, some d⟩ = .error .configNotFound
        ∧ node_init_ret fe uo sub ⟨some c, u, some d⟩ = -1)
    ∧ (fe c = false →
        node_init fe uo sub ⟨some c, u, none⟩ = .error .configNotFound
        ∧ node_init_ret fe uo sub ⟨some c, u, none⟩ = -1)
    ∧ node_init fe uo sub ⟨some c, u, dOpt⟩
        = node_init fe uo2 sub ⟨some c, u2, dOpt⟩ := by
  refine ⟨?_, ?_, ?_, ?_, rfl⟩
  · intro h uA dA
    exact ⟨by simp [node_init, h], by simp [node_init_ret, node_init, h]⟩
  · intro h1 h2
    exact ⟨by simp [node_init, h1, h2],
           by simp [node_init_ret, node_init, h1, h2]⟩
  · intro h1 h2
    exact ⟨by simp [node_init, h1, h2],
           by simp [node_init_ret, node_init, h1, h2]⟩
  · intro h
    exact ⟨by simp [node_init, h], by simp [node_init_ret, node_init, h]⟩

/-- Witness for C2: a `cfg.txt` that exists literally is used directly;
when only `Nodes/cfg.txt` exists the concatenated path is used; when
neither exists the result is `ConfigNotFound`, with and without a
directory argument. -/
theorem node_init_config_path_resolution_witness :
    node_init (fun s => s == "cfg.txt") (fun _ => false) "nodes/"
        ⟨some "cfg.txt", none, none⟩ = .ok "cfg.txt"
    ∧ node_init (fun s => s == "Nodes/cfg.txt") (fun _ => false) "nodes/"
        ⟨some "cfg.txt", none, some "Nodes/"⟩ = .ok "Nodes/cfg.txt"
    ∧ node_init (fun _ => false) (fun _ => false) "nodes/"
        ⟨some "cfg.txt", none, some "Nodes/"⟩ = .error .configNotFound
    ∧ node_init (fun _ => false) (fun _ => false) "nodes/"
        ⟨some "cfg.txt", none, none⟩ = .error .configNotFound :=
  ⟨((node_init_config_path_resolution (fun s => s == "cfg.txt")
      (fun _ => false) (fun _ => false) "nodes/" "cfg.txt" "Nodes/"
      none none none).1 (by decide) none none).1,
   ((node_init_config_path_resolution (fun s => s == "Nodes/cfg.txt")
      (fun _ => false) (fun _ => false) "nodes/" "cfg.txt" "Nodes/"
      none none none).2.1 (by decide) (by decide)).1,
   ((node_init_config_path_resolution (fun _ => false)
      (fun _ => false) (fun _ => false) "nodes/" "cfg.txt" "Nodes/"
      none none none).2.2.1 (by decide) (by decide)).1,
   ((node_init_config_path_resolution (fun _ => false)
      (fun _ => false) (fun _ => false) "nodes/" "cfg.txt" "Nodes/"
      none none none).2.2.2.1 (by decide)).1⟩

/-- Claim C3: with `configPath` unset and both `uuid` and `directory` set,
`node_init` first validates the uuid and fails with `InvalidIdentity`
(code -1) when it is malformed — for every file-existence oracle, i.e.
without consulting the file system; for a well-formed uuid it composes
`directory ++ nodeSubdirectory ++ uuid`, returning 0 when that path exists
and failing with `ConfigNotFound` (code -1) when it does not. -/
theorem node_init_uuid_directory_resolution
    (fe uo : String → Bool) (sub d u1 u2 : String) :
    (uo u1 = false → ∀ fe2 : String → Bool,
        node_init fe2 uo sub ⟨none, some u1, some d⟩ = .error .invalidIdentity
        ∧ node_init_ret fe2 uo sub ⟨none, some u1, some d⟩ = -1)
    ∧ (uo u2 = true → fe (d ++ sub ++ u2) = true →
        node_init fe uo sub ⟨none, some u2, some d⟩ = .ok (d ++ sub ++ u2)
        ∧ node_init_ret fe uo sub ⟨none, some u2, some d⟩ = 0)
    ∧ (uo u2 = true → fe (d ++ sub ++ u2) = false →
        node_init fe uo sub ⟨none, some u2, some d⟩ = .error .configNotFound
        ∧ node_init_ret fe uo sub ⟨none, some u2, some d⟩ = -1) := by
  refine ⟨?_, ?_, ?_⟩
  · intro h fe2
    exact ⟨by simp [node_init, h], by simp [node_init_ret, node_init, h]⟩
  · intro h1 h2
    exact ⟨by simp [node_init, h1, h2],
           by simp [node_init_ret, node_init, h1, h2]⟩
  · intro h1 h2
    exact ⟨by simp [node_init, h1, h2],
           by simp [node_init_ret, node_init, h1, h2]⟩

/-- Witness for C3: `uuid = "not-a-uuid"` fails with `InvalidIdentity`
even under an oracle for which every file exists; a validated uuid
resolves `Nodes/nodes/<uuid>` when it exists and fails with
`ConfigNotFound` when it does not. -/
theorem node_init_uuid_directory_resolution_witness :
    (node_init (fun _ => true)
      (fun s => s == "123e4567-e89b-12d3-a456-426614174000") "nodes/"
      ⟨none, some "not-a-uuid", some "Nodes/"⟩ = .error .invalidIdentity)
    ∧ (node_init (fun _ => true)
      (fun s => s == "123e4567-e89b-12d3-a456-426614174000") "nodes/"
      ⟨none, some "123e4567-e89b-12d3-a456-426614174000", some "Nodes/"⟩
        = .ok "Nodes/nodes/123e4567-e89b-12d3-a456-426614174000")
    ∧ (node_init (fun _ => false)
      (fun s => s == "123e4567-e89b-12d3-a456-426614174000") "nodes/"
      ⟨none, some "123e4567-e89b-12d3-a456-426614174000", some "Nodes/"⟩
        = .error .configNotFound) :=
  ⟨((node_init_uuid_directory_resolution (fun _ => true)
      (fun s => s == "123e4567-e89b-12d3-a456-426614174000") "nodes/"
      "Nodes/" "not-a-uuid" "123e4567-e89b-12d3-a456-426614174000").1
      (by decide) (fun _ => true)).1,
   ((node_init_uuid_directory_resolution (fun _ => true)
      (fun s => s == "123e4567-e89b-12d3-a456-426614174000") "nodes/"
      "Nodes/" "not-a-uuid" "123e4567-e89b-12d3-a456-426614174000").2.1
      (by decide) (by decide)).1,
   ((node_init_uuid_directory_resolution (fun _ => false)
      (fun s => s == "123e4567-e89b-12d3-a456-426614174000") "nodes/"
      "Nodes/" "not-a-uuid" "123e4567-e89b-12d3-a456-426614174000").2.2
      (by decide) (by decide)).1⟩

/-- Claim C4: with `configPath` unset and not both `uuid` and `directory`
set, `node_init` fails with `InsufficientArguments`; and at the function
boundary every failure kind maps to the single code `-1` and every success
to `0`. -/
theorem node_init_insufficient_arguments_and_codes
    (fe uo : String → Bool) (sub : String) (args args2 args3 : arguments)
    (e : InitError) (p : String)
    (h1 : args.config = none) (h2 : args.uuid = none ∨ args.directory = none) :
    node_init fe uo sub args = .error .insufficientArguments
    ∧ node_init_ret fe uo sub args = -1
    ∧ (node_init fe uo sub args2 = .error e → node_init_ret fe uo sub args2 = -1)
    ∧ (node_init fe uo sub args3 = .ok p → node_init_ret fe uo sub args3 = 0) := by
  obtain ⟨cOpt, uOpt, dOpt⟩ := args
  simp only at h1 h2
  subst h1
  have hmain : node_init fe uo sub ⟨none, uOpt, dOpt⟩
      = .error .insufficientArguments := by
    rcases h2 with h2 | h2 <;> subst h2
    · cases dOpt <;> rfl
    · cases uOpt <;> rfl
  refine ⟨hmain, by simp [node_init_ret, hmain], ?_, ?_⟩
  · intro h
    simp [node_init_ret, h]
  · intro h
    simp [node_init_ret, h]

/-- Witness for C4: no arguments at all yields `InsufficientArguments`
with code `-1`; a failing resolution (missing file) has code `-1`; a
successful resolution has code `0`. -/
theorem node_init_insufficient_arguments_and_codes_witness :
    node_init (fun s => s == "cfg.txt") (fun _ => false) "nodes/"
        ⟨none, none, none⟩ = .error .insufficientArguments
    ∧ node_init_ret (fun s => s == "cfg.txt") (fun _ => false) "nodes/"
        ⟨none, none, none⟩ = -1
    ∧ node_init_ret (fun s => s == "cfg.txt") (fun _ => false) "nodes/"
        ⟨some "nope.txt", none, none⟩ = -1
    ∧ node_init_ret (fun s => s == "cfg.txt") (fun _ => false) "nodes/"
        ⟨some "cfg.txt", none, none⟩ = 0 := by
  have H := node_init_insufficient_arguments_and_codes
    (fun s => s == "cfg.txt") (fun _ => false) "nodes/"
    ⟨none, none, none⟩ ⟨some "nope.txt", none, none⟩
    ⟨some "cfg.txt", none, none⟩ .configNotFound "cfg.txt"
    rfl (Or.inl rfl)
  exact ⟨H.1, H.2.1, H.2.2.1 rfl, H.2.2.2 rfl⟩

/-- Claim C5 counterexample: for the line `"deviceId:AB:extra"` the value
`parse_line` forwards to `set_config` is `"AB"` — exactly the text between
the first and the second delimiter, because `strtok(NULL, ":")` stops at
the next `:` — not the entire remainder `"AB:extra"`; and the call
succeeds with code `0` (setting `deviceId` to `0xAB`) instead of failing
as `InvalidEncoding`. -/
theorem parse_line_strtok_counterexample :
    parse_line_kv "deviceId:AB:extra" = some ("deviceId", some "AB")
    ∧ (some "AB" : Option String) ≠ some "AB:extra"
    ∧ parse_line initialConfig "deviceId:AB:extra"
        = some ({ initialConfig with deviceId := [0xAB] }, 0) := by
  decide

/-- Claim C5 as amended: `parse_line("deviceId:AB")` sets `deviceId` to
byte `0xAB` and succeeds; for `"deviceId:AB:extra"` the value forwarded to
`set_config` is `"AB"`, the text between the first and second delimiter
(the remainder is ignored), and the call succeeds with code `0`, setting
`deviceId` to `0xAB`. -/
theorem parse_line_strtok_amended :
    parse_line initialConfig "deviceId:AB"
        = some ({ initialConfig with deviceId := [0xAB] }, 0)
    ∧ parse_line_kv "deviceId:AB:extra" = some ("deviceId", some "AB")
    ∧ parse_line initialConfig "deviceId:AB:extra"
        = some ({ initialConfig with deviceId := [0xAB] }, 0) := by
  decide

/-- Claim C6 counterexample: the delimiter-free line `"deviceId"` matches
a recognized key, so `set_config` is reached with a null value pointer and
dereferences it — the result is undefined (`none`), not the claimed
defined failure `-1` with the store unchanged. -/
theorem parse_line_no_colon_counterexample :
    (':' ∉ "deviceId".data)
    ∧ parse_line initialConfig "deviceId" = none
    ∧ parse_line initialConfig "deviceId" ≠ some (initialConfig, -1) := by
  decide

/-- Claim C6 as amended: for every input line containing no `:` that does
not equal one of the seven recognized keys, `parse_line` returns `-1` and
leaves the configuration completely unchanged (a recognized-key line
without a delimiter instead dereferences the null value pointer). -/
theorem parse_line_no_colon_amended (cfg : ConfigNode) (line : String)
    (h1 : ':' ∉ line.data) (h2 : line ∉ configKeys) :
    parse_line cfg line = some (cfg, -1) := by
  by_cases hne : line = ""
  · subst hne
    rfl
  · unfold parse_line
    rw [parse_line_kv_no_colon h1 hne]
    exact set_config_unknown cfg none h2

/-- Witness for the amended C6: `parse_line("nocolonhere")` fails with
`-1` and leaves the configuration unchanged. -/
theorem parse_line_no_colon_amended_witness :
    parse_line initialConfig "nocolonhere" = some (initialConfig, -1) :=
  parse_line_no_colon_amended initialConfig "nocolonhere" (by decide)
    (by decide)

/-- Claim C7: for each of the seven recognized keys and every value that is
a canonical encoding for that key's field (exact schema width, the codec's
consistent uppercase hex convention; for `preambleTime` the decimal
rendering of a value below `2 ^ 16`), `set_config` succeeds with code `0`
and a subsequent `get_config` returns exactly the same ASCII text. -/
theorem canonical_set_get_roundtrip (cfg : ConfigNode)
    (v1 v2 v3 v4 v5 v6 v7 : String) :
    (isCanonicalHex 1 v1 → ∃ c, set_config cfg strDeviceId (some v1)
        = some (c, 0) ∧ get_config c strDeviceId = some v1)
    ∧ (isCanonicalHex 2 v2 → ∃ c, set_config cfg strGroupId (some v2)
        = some (c, 0) ∧ get_config c strGroupId = some v2)
    ∧ (isCanonicalHex 4 v3 → ∃ c, set_config cfg strGwMask (some v3)
        = some (c, 0) ∧ get_config c strGwMask = some v3)
    ∧ (isCanonicalHex 1 v4 → ∃ c, set_config cfg strRchanId (some v4)
        = some (c, 0) ∧ get_config c strRchanId = some v4)
    ∧ (isCanonicalHex 1 v5 → ∃ c, set_config cfg strRsf (some v5)
        = some (c, 0) ∧ get_config c strRsf = some v5)
    ∧ (isCanonicalDec v6 → ∃ c, set_config cfg strPreambleTime (some v6)
        = some (c, 0) ∧ get_config c strPreambleTime = some v6)
    ∧ (isCanonicalHex 16 v7 → ∃ c, set_config cfg strEncKey (some v7)
        = some (c, 0) ∧ get_config c strEncKey = some v7) := by
  refine ⟨?_, ?_, ?_, ?_, ?_, ?_, ?_⟩
  · intro h
    refine ⟨_, set_config_deviceId cfg v1, ?_⟩
    rw [get_config_deviceId]
    show some (decodeHexField (readBytes 1 (encodeHexChars 1 v1.data)))
      = some v1
    rw [readBytes_of_length (encodeHexChars_length 1 v1.data),
      decodeHexField_encode h]
  · intro h
    refine ⟨_, set_config_groupId cfg v2, ?_⟩
    rw [get_config_groupId]
    show some (decodeHexField (readBytes 2 (encodeHexChars 2 v2.data)))
      = some v2
    rw [readBytes_of_length (encodeHexChars_length 2 v2.data),
      decodeHexField_encode h]
  · intro h
    refine ⟨_, set_config_gwMask cfg v3, ?_⟩
    rw [get_config_gwMask]
    show some (decodeHexField (readBytes 4 (encodeHexChars 4 v3.data)))
      = some v3
    rw [readBytes_of_length (encodeHexChars_length 4 v3.data),
      decodeHexField_encode h]
  · intro h
    refine ⟨_, set_config_rchanId cfg v4, ?_⟩
    rw [get_config_rchanId]
    show some (decodeHexField (readBytes 1 (encodeHexChars 1 v4.data)))
      = some v4
    rw [readBytes_of_length (encodeHexChars_length 1 v4.data),
      decodeHexField_encode h]
  · intro h
    refine ⟨_, set_config_rsf cfg v5, ?_⟩
    rw [get_config_rsf]
    show some (decodeHexField (readBytes 1 (encodeHexChars 1 v5.data)))
      = some v5
    rw [readBytes_of_length (encodeHexChars_length 1 v5.data),
      decodeHexField_encode h]
  · intro h
    obtain ⟨m, hm, rfl⟩ := h
    refine ⟨_, set_config_preambleTime cfg (decString m), ?_⟩
    rw [get_config_preambleTime]
    show some (decString (parseDec (decString m) % 65536))
      = some (decString m)
    rw [parseDec_decString, Nat.mod_eq_of_lt hm]
  · intro h
    refine ⟨_, set_config_encKey cfg v7, ?_⟩
    rw [get_config_encKey]
    show some (decodeHexField (readBytes 16 (encodeHexChars 16 v7.data)))
      = some v7
    rw [readBytes_of_length (encodeHexChars_length 16 v7.data),
      decodeHexField_encode h]

/-- Witness for C7: concrete canonical values for each of the seven keys
round-trip through `set_config`/`get_config` unchanged. -/
theorem canonical_set_get_roundtrip_witness :
    (∃ c, set_config initialConfig strDeviceId (some "AB") = some (c, 0)
      ∧ get_config c strDeviceId = some "AB")
    ∧ (∃ c, set_config initialConfig strGroupId (some "1A2B") = some (c, 0)
      ∧ get_config c strGroupId = some "1A2B")
    ∧ (∃ c, set_config initialConfig strGwMask (some "DEADBEEF")
        = some (c, 0) ∧ get_config c strGwMask = some "DEADBEEF")
    ∧ (∃ c, set_config initialConfig strRchanId (some "07") = some (c, 0)
      ∧ get_config c strRchanId = some "07")
    ∧ (∃ c, set_config initialConfig strRsf (some "0C") = some (c, 0)
      ∧ get_config c strRsf = some "0C")
    ∧ (∃ c, set_config initialConfig strPreambleTime (some "500")
        = some (c, 0) ∧ get_config c strPreambleTime = some "500")
    ∧ (∃ c, set_config initialConfig strEncKey
        (some "000102030405060708090A0B0C0D0E0F") = some (c, 0)
      ∧ get_config c strEncKey
        = some "000102030405060708090A0B0C0D0E0F") := by
  have H := canonical_set_get_roundtrip initialConfig "AB" "1A2B"
    "DEADBEEF" "07" "0C" "500" "000102030405060708090A0B0C0D0E0F"
  exact ⟨H.1 (by decide), H.2.1 (by decide), H.2.2.1 (by decide),
    H.2.2.2.1 (by decide), H.2.2.2.2.1 (by decide),
    H.2.2.2.2.2.1 ⟨500, by decide, by decide⟩,
    H.2.2.2.2.2.2 (by decide)⟩

/-- Claim C8 counterexample: the decimal value `70000` overflows the
2-byte `preambleTime` field, yet `set_config` reports success (`0`) and
silently stores the truncated value `70000 % 2 ^ 16 = 4464` — no
`InvalidEncoding` error is reported. -/
theorem preamble_overflow_counterexample :
    parseDec "70000" = 70000
    ∧ 65535 < parseDec "70000"
    ∧ set_config initialConfig strPreambleTime (some "70000")
        = some ({ initialConfig with preambleTime := 4464 }, 0)
    ∧ 4464 ≠ parseDec "70000" := by
  decide

/-- Claim C8 as amended: decimal encoding parses a decimal string of
arbitrary length into an unsigned integer, but a value whose magnitude
overflows the 2-byte field width is truncated modulo `2 ^ 16` at the
`uint16_t` assignment and `set_config` returns success (`0`): overflow is
silently accepted, not reported as an error. -/
theorem preamble_overflow_amended (cfg : ConfigNode) (v : String) (m : Nat) :
    set_config cfg strPreambleTime (some v)
      = some ({ cfg with preambleTime := parseDec v % 65536 }, 0)
    ∧ parseDec (decString m) = m
    ∧ (65536 ≤ parseDec v → parseDec v % 65536 ≠ parseDec v) := by
  refine ⟨set_config_preambleTime cfg v, parseDec_decString m, ?_⟩
  intro h hcontra
  have hlt := Nat.mod_lt (parseDec v) (show 0 < 65536 by omega)
  omega

/-- Witness for the amended C8: the overflowing value `"70000"` is stored
truncated with success code `0`; the parser itself handles the full
magnitude `70000`. -/
theorem preamble_overflow_amended_witness :
    set_config initialConfig strPreambleTime (some "70000")
      = some ({ initialConfig with preambleTime := parseDec "70000" % 65536 },
              0)
    ∧ parseDec (decString 70000) = 70000
    ∧ parseDec "70000" % 65536 ≠ parseDec "70000" := by
  have H := preamble_overflow_amended initialConfig "70000" 70000
  exact ⟨H.1, H.2.1, H.2.2 (by decide)⟩

/-- Claim C9 (code bug): in the source the `argc == 2` branch of
`get_uuid` has an empty body, so neither validation nor any assignment of
`uuid_str`/`ret` happens before the path is formatted — the result is
built from uninitialized data (modelled as the undefined result `none`),
contradicting the function's own documented contract (`-1` invalid uuid,
`1` valid uuid).  Only the generation branch (`argc != 2`) behaves as
documented, composing `"Nodes/" ++ uuid` from the freshly generated uuid
with return code `0`. -/
theorem get_uuid_argc2_uninitialized (u : String) :
    get_uuid u 2 = none
    ∧ get_uuid u 1 = some (0, "Nodes/" ++ u)
    ∧ get_uuid u 0 = some (0, "Nodes/" ++ u) :=
  ⟨rfl, rfl, rfl⟩

/-- Claim C10 counterexample: for the empty line — which contains no `:` —
the first `strtok` already returns null and `parse_line` returns `-1`
without calling `set_config` at all, so the entire line is not forwarded
as a key with a null value pointer. -/
theorem parse_line_null_value_counterexample :
    (':' ∉ "".data)
    ∧ parse_line_kv "" = none
    ∧ parse_line_kv "" ≠ some ("", none) := by
  decide

/-- Claim C10 as amended: for every nonempty input line in which no `:`
occurs, `parse_line` forwards the entire line as the key together with a
null value pointer to `set_config`; no recognized-key branch of
`set_config` checks the value pointer before converting, so the call is
well-defined only when the line matches none of the seven keys (taking
the unknown-key branch, result `-1`), and is a null dereference
(undefined, `none`) when the line equals a recognized key. -/
theorem parse_line_null_value_amended (cfg : ConfigNode) (line : String)
    (h1 : ':' ∉ line.data) (h2 : line ≠ "") :
    parse_line_kv line = some (line, none)
    ∧ parse_line cfg line = set_config cfg line none
    ∧ (line ∉ configKeys → parse_line cfg line = some (cfg, -1))
    ∧ (line ∈ configKeys → parse_line cfg line = none) := by
  have hkv := parse_line_kv_no_colon h1 h2
  have heq : parse_line cfg line = set_config cfg line none := by
    unfold parse_line
    rw [hkv]
  refine ⟨hkv, heq, ?_, ?_⟩
  · intro h
    rw [heq]
    exact set_config_unknown cfg none h
  · intro h
    rw [heq]
    exact set_config_known_none cfg h

/-- Witness for the amended C10: the unrecognized delimiter-free line
`"nocolonhere"` is forwarded with a null value and rejected harmlessly,
while the recognized delimiter-free line `"deviceId"` reaches the null
dereference. -/
theorem parse_line_null_value_amended_witness :
    (parse_line_kv "nocolonhere" = some ("nocolonhere", none)
     ∧ parse_line initialConfig "nocolonhere" = some (initialConfig, -1))
    ∧ (parse_line_kv "deviceId" = some ("deviceId", none)
     ∧ parse_line initialConfig "deviceId" = none) := by
  have H1 := parse_line_null_value_amended initialConfig "nocolonhere"
    (by decide) (by decide)
  have H2 := parse_line_null_value_amended initialConfig "deviceId"
    (by decide) (by decide)
  exact ⟨⟨H1.1, H1.2.2.1 (by decide)⟩, ⟨H2.1, H2.2.2.2 (by decide)⟩⟩

end LowApp
